import Mathlib

/-!
Shallow embedding of the library/reading-list client:
`src/services/api.ts` (HTTP wrapper functions around fetch) and
`src/contexts/AuthContext.tsx` (authentication state holder around the
identity SDK).  External effects — the identity SDK session lookup, the
current-user lookup, the sign-in/sign-up/sign-out calls, and the single
HTTP response each wrapper consumes — are passed in as explicit values;
each wrapper returns its result (`Except` models a JS throw) paired with
the list of HTTP requests it issued, in order.
-/

namespace LibClient

/-- An error value thrown by the identity SDK (opaque to this code). -/
structure SdkError where
  msg : String
deriving DecidableEq, Repr

/-- The user object returned by the SDK `getCurrentUser`:
`userId`, `username`, and `signInDetails?.loginId` (optional). -/
structure AmplifyUser where
  userId : String
  username : String
  loginId : Option String
deriving DecidableEq, Repr

/-- Result object of the SDK `signIn` call. -/
structure SignInResult where
  isSignedIn : Bool
deriving DecidableEq, Repr

/-- Outcome of `fetchAuthSession`: either it throws (`Except.error`), or it
returns a session whose `tokens?.idToken?.toString()` is the optional
token string. -/
abbrev Session := Except Unit (Option String)

/-- An HTTP response as the wrappers observe it: numeric status,
`response.text()` as `body`, and the parsed `response.json()` as `json`
(of the endpoint-specific type `α`). -/
structure HttpResponse (α : Type) where
  status : Nat
  body : String
  json : α
deriving DecidableEq, Repr

/-- Models `response.ok` of the fetch API: status in the range 200–299. -/
def respOk {α : Type} (r : HttpResponse α) : Bool :=
  200 ≤ r.status && r.status ≤ 299

/-- Serialized request bodies (`JSON.stringify` of the structured payloads
the wrappers build). -/
inductive ReqBody where
  /-- the serialized query object sent by `getRecommendations`. -/
  | queryPayload (q : String)
  /-- a serialized book input (`createBook` / `updateBook`). -/
  | bookPayload (fields : List (String × String))
  /-- a serialized reading-list input (`createReadingList` / `updateReadingList`). -/
  | listPayload (fields : List (String × String))
  /-- the payload of `addBookToReadingList` / `removeBookFromReadingList`:
  userId plus a bookIds object with an action and a bookId. -/
  | listMutation (userId : String) (action : String) (bookId : String)
deriving DecidableEq, Repr

/-- An HTTP request as built by a wrapper: url, method, headers, body. -/
structure HttpRequest where
  url : String
  method : String
  headers : List (String × String)
  body : Option ReqBody
deriving DecidableEq, Repr

/-- A value thrown by an API wrapper: either a generic `Error` with a
message, or a propagated SDK error. -/
inductive ApiError where
  | message (msg : String)
  | sdk (e : SdkError)
deriving DecidableEq, Repr

/-- Bool test: did this call throw? -/
def throws {ε α : Type} : Except ε α → Bool
  | .error _ => true
  | .ok _ => false

/-- Embeds `getAuthHeaders` (api.ts lines 6–23): tries `fetchAuthSession`; if a
truthy token is available, returns Authorization + Content-Type headers,
otherwise (no token, empty token, or the session call threw) returns just
the Content-Type header.  The try/catch means it never throws. -/
def getAuthHeaders (session : Session) : List (String × String) :=
  match session with
  | .ok (some token) =>
      if token = "" then
        [("Content-Type", "application/json")]
      else
        [("Authorization", "Bearer " ++ token), ("Content-Type", "application/json")]
  | .ok none => [("Content-Type", "application/json")]
  | .error _ => [("Content-Type", "application/json")]

/-- Embeds `getBooks` (api.ts lines 25–34): GET /books, throws a fixed message on
non-ok, otherwise returns the parsed body verbatim. -/
def getBooks {α : Type} (baseUrl : String) (session : Session)
    (resp : HttpResponse α) : Except ApiError α × List HttpRequest :=
  let headers := getAuthHeaders session
  let req : HttpRequest :=
    { url := baseUrl ++ "/books", method := "GET", headers := headers, body := none }
  if respOk resp then (.ok resp.json, [req])
  else (.error (.message "Failed to fetch books"), [req])

/-- Embeds `getBook` (api.ts lines 37–48): GET /books/:id; returns null on a 404,
throws a fixed message on any other non-ok status, otherwise returns the
parsed body. -/
def getBook {α : Type} (baseUrl : String) (session : Session) (id : String)
    (resp : HttpResponse α) : Except ApiError (Option α) × List HttpRequest :=
  let headers := getAuthHeaders session
  let req : HttpRequest :=
    { url := baseUrl ++ "/books/" ++ id, method := "GET", headers := headers, body := none }
  if resp.status = 404 then (.ok none, [req])
  else if respOk resp then (.ok (some resp.json), [req])
  else (.error (.message "Failed to fetch book"), [req])

/-- Embeds `createBook` (api.ts lines 51–62): POST /books with the serialized
book, throws a fixed message on non-ok. -/
def createBook {α : Type} (baseUrl : String) (session : Session)
    (book : List (String × String)) (resp : HttpResponse α) :
    Except ApiError α × List HttpRequest :=
  let headers := getAuthHeaders session
  let req : HttpRequest :=
    { url := baseUrl ++ "/books", method := "POST", headers := headers,
      body := some (.bookPayload book) }
  if respOk resp then (.ok resp.json, [req])
  else (.error (.message "Failed to create book"), [req])

/-- Embeds `updateBook` (api.ts lines 64–81): PUT /books/:id with the serialized
partial book, throws a fixed message on non-ok. -/
def updateBook {α : Type} (baseUrl : String) (session : Session) (id : String)
    (book : List (String × String)) (resp : HttpResponse α) :
    Except ApiError α × List HttpRequest :=
  let headers := getAuthHeaders session
  let req : HttpRequest :=
    { url := baseUrl ++ "/books/" ++ id, method := "PUT", headers := headers,
      body := some (.bookPayload book) }
  if respOk resp then (.ok resp.json, [req])
  else (.error (.message "Failed to update book"), [req])

/-- Embeds `deleteBook` (api.ts lines 83–94): DELETE /books/:id, throws a fixed
message on non-ok, returns void on success (never parses the body). -/
def deleteBook {α : Type} (baseUrl : String) (session : Session) (id : String)
    (resp : HttpResponse α) : Except ApiError Unit × List HttpRequest :=
  let headers := getAuthHeaders session
  let req : HttpRequest :=
    { url := baseUrl ++ "/books/" ++ id, method := "DELETE", headers := headers,
      body := none }
  if respOk resp then (.ok (), [req])
  else (.error (.message "Failed to delete book"), [req])

/-- One element of the Lambda response consumed by `getRecommendations`:
title, author, optional reason, optional confidence.  `Option` models a
missing/undefined field. -/
structure BedrockRec where
  title : String
  author : String
  reason : Option String
  confidence : Option ℚ
deriving DecidableEq, Repr

/-- The Lambda response body: possibly-missing `recommendations` array. -/
structure RecsResponse where
  recommendations : Option (List BedrockRec)
deriving DecidableEq, Repr

/-- The frontend `Recommendation` type as populated by `getRecommendations`
(api.ts lines 128–136): id, bookId, reason, confidence, plus the AI title
and author stored for display. -/
structure Recommendation where
  id : String
  bookId : String
  reason : String
  confidence : ℚ
  title : String
  author : String
deriving DecidableEq, Repr

/-- The per-element conversion inside `getRecommendations` (api.ts lines
128–136): id and bookId are synthesized from the element index, `reason`
falls back to a title/author template when the server reason is absent or
empty (JS falsiness of `rec.reason`; an absent value interpolates as
"undefined"), `confidence` falls back to 0.8 when absent or zero
(JS falsiness of `rec.confidence`). -/
def formatRec (i : Nat) (rec : BedrockRec) : Recommendation :=
  { id := "bedrock-" ++ toString i
    bookId := "unknown-" ++ toString i
    reason :=
      match rec.reason with
      | some r => if r = "" then rec.title ++ " by " ++ rec.author ++ " - " else r
      | none => rec.title ++ " by " ++ rec.author ++ " - undefined"
    confidence :=
      match rec.confidence with
      | some c => if c = 0 then 4/5 else c
      | none => 4/5
    title := rec.title
    author := rec.author }

/-- Embeds `getRecommendations` (api.ts lines 96–145): POST /recommendations with
the query payload; on non-ok throws an error carrying status and response
text; on success maps each element of `data.recommendations || []` through
the conversion above.  The surrounding try/catch only logs and rethrows. -/
def getRecommendations (baseUrl : String) (session : Session) (query : String)
    (resp : HttpResponse RecsResponse) :
    Except ApiError (List Recommendation) × List HttpRequest :=
  let headers := getAuthHeaders session
  let req : HttpRequest :=
    { url := baseUrl ++ "/recommendations", method := "POST", headers := headers,
      body := some (.queryPayload query) }
  if respOk resp then
    let recs := resp.json.recommendations.getD []
    (.ok (recs.enum.map (fun p => formatRec p.1 p.2)), [req])
  else
    (.error (.message ("Failed to get recommendations: " ++ toString resp.status
      ++ " - " ++ resp.body)), [req])

/-- The userId resolution inside `getReadingLists` (api.ts lines 176–186):
the current user's id when `getCurrentUser` succeeds, else the hard-coded
fallback. -/
def resolvedUserId (cur : Except SdkError AmplifyUser) : String :=
  match cur with
  | .ok u => u.userId
  | .error _ => "test-user-123"

/-- Embeds `getReadingLists` (api.ts lines 169–212): GET
/reading-lists?userId=<resolved id>; a failing `getCurrentUser` is
swallowed and the fallback id used, so the request is always issued.  On
non-ok throws an error carrying status and response text; on success
returns the parsed body verbatim. -/
def getReadingLists {α : Type} (baseUrl : String) (session : Session)
    (cur : Except SdkError AmplifyUser) (resp : HttpResponse α) :
    Except ApiError α × List HttpRequest :=
  let headers := getAuthHeaders session
  let req : HttpRequest :=
    { url := baseUrl ++ "/reading-lists?userId=" ++ resolvedUserId cur,
      method := "GET", headers := headers, body := none }
  if respOk resp then (.ok resp.json, [req])
  else
    (.error (.message ("Failed to fetch reading lists: " ++ toString resp.status
      ++ " - " ++ resp.body)), [req])

/-- Embeds `createReadingList` (api.ts lines 214–225): POST /reading-lists with
the serialized list, throws a fixed message on non-ok. -/
def createReadingList {α : Type} (baseUrl : String) (session : Session)
    (list : List (String × String)) (resp : HttpResponse α) :
    Except ApiError α × List HttpRequest :=
  let headers := getAuthHeaders session
  let req : HttpRequest :=
    { url := baseUrl ++ "/reading-lists", method := "POST", headers := headers,
      body := some (.listPayload list) }
  if respOk resp then (.ok resp.json, [req])
  else (.error (.message "Failed to create reading list"), [req])

/-- Embeds `updateReadingList` (api.ts lines 227–244): PUT /reading-lists/:id with
the serialized partial list, throws a fixed message on non-ok. -/
def updateReadingList {α : Type} (baseUrl : String) (session : Session)
    (id : String) (list : List (String × String)) (resp : HttpResponse α) :
    Except ApiError α × List HttpRequest :=
  let headers := getAuthHeaders session
  let req : HttpRequest :=
    { url := baseUrl ++ "/reading-lists/" ++ id, method := "PUT",
      headers := headers, body := some (.listPayload list) }
  if respOk resp then (.ok resp.json, [req])
  else (.error (.message "Failed to update reading list"), [req])

/-- Embeds `deleteReadingList` (api.ts lines 247–272): calls `getCurrentUser`
first — a rejection propagates out of the outer catch (which logs and
rethrows) before any fetch.  Otherwise DELETE
/reading-lists/:id?userId=<current user id>; on non-ok throws an error
carrying status and response text; success returns void. -/
def deleteReadingList {α : Type} (baseUrl : String) (session : Session)
    (cur : Except SdkError AmplifyUser) (id : String) (resp : HttpResponse α) :
    Except ApiError Unit × List HttpRequest :=
  match cur with
  | .error e => (.error (.sdk e), [])
  | .ok u =>
    let headers := getAuthHeaders session
    let req : HttpRequest :=
      { url := baseUrl ++ "/reading-lists/" ++ id ++ "?userId=" ++ u.userId,
        method := "DELETE", headers := headers, body := none }
    if respOk resp then (.ok (), [req])
    else
      (.error (.message ("Failed to delete reading list: " ++ toString resp.status
        ++ " - " ++ resp.body)), [req])

/-- Embeds `addBookToReadingList` (api.ts lines 278–307): calls `getCurrentUser`
first — a rejection propagates before any fetch.  Otherwise PUT
/reading-lists/:listId with the userId/add/bookId payload; on non-ok
throws an error carrying status and response text; success returns the
parsed body. -/
def addBookToReadingList {α : Type} (baseUrl : String) (session : Session)
    (cur : Except SdkError AmplifyUser) (listId : String) (bookId : String)
    (resp : HttpResponse α) : Except ApiError α × List HttpRequest :=
  match cur with
  | .error e => (.error (.sdk e), [])
  | .ok u =>
    let headers := getAuthHeaders session
    let req : HttpRequest :=
      { url := baseUrl ++ "/reading-lists/" ++ listId, method := "PUT",
        headers := headers, body := some (.listMutation u.userId "add" bookId) }
    if respOk resp then (.ok resp.json, [req])
    else
      (.error (.message ("Failed to add book to reading list: "
        ++ toString resp.status ++ " - " ++ resp.body)), [req])

/-- Embeds `removeBookFromReadingList` (api.ts lines 312–341): same shape as
`addBookToReadingList` with the "remove" action. -/
def removeBookFromReadingList {α : Type} (baseUrl : String) (session : Session)
    (cur : Except SdkError AmplifyUser) (listId : String) (bookId : String)
    (resp : HttpResponse α) : Except ApiError α × List HttpRequest :=
  match cur with
  | .error e => (.error (.sdk e), [])
  | .ok u =>
    let headers := getAuthHeaders session
    let req : HttpRequest :=
      { url := baseUrl ++ "/reading-lists/" ++ listId, method := "PUT",
        headers := headers, body := some (.listMutation u.userId "remove" bookId) }
    if respOk resp then (.ok resp.json, [req])
    else
      (.error (.message ("Failed to remove book from reading list: "
        ++ toString resp.status ++ " - " ++ resp.body)), [req])

/-- The frontend `User` record built by the auth holder. -/
structure User where
  id : String
  email : String
  name : String
  role : String
  createdAt : String
deriving DecidableEq, Repr

/-- The auth holder's two state hooks (`user`, `isLoading`). -/
structure AuthState where
  user : Option User
  isLoading : Bool
deriving DecidableEq, Repr

/-- Initial hook values (AuthContext.tsx lines 58–59): no user, and
`isLoading` starts true (useState(true)) pending session resolution. -/
def initialAuthState : AuthState := { user := none, isLoading := true }

/-- Embeds `checkAuth` (AuthContext.tsx lines 62–77): the initial session
resolution.  On a resolved user, mirrors it (email from
`signInDetails?.loginId || ''`); on rejection, clears the user.  Either
way `isLoading` finishes false.  `now` is the ISO timestamp taken at
mirroring time. -/
def checkAuth (now : String) (cur : Except SdkError AmplifyUser) : AuthState :=
  match cur with
  | .ok u =>
      { user := some { id := u.userId, email := u.loginId.getD "",
                       name := u.username, role := "user", createdAt := now },
        isLoading := false }
  | .error _ => { user := none, isLoading := false }

/-- Embeds `login` (AuthContext.tsx lines 82–102).  Returns the thrown-or-ok
result and the list of states after each setState call: setIsLoading(true)
on entry, setUser when signIn reports signed-in and getCurrentUser
resolves, setIsLoading(false) in the finally block.  The catch rethrows,
so SDK failures surface; no setUser runs on any failure path or when
`isSignedIn` is false. -/
def login (st : AuthState) (now : String) (email : String) (password : String)
    (signInRes : Except SdkError SignInResult)
    (cur : Except SdkError AmplifyUser) :
    Except SdkError Unit × List AuthState :=
  let st1 : AuthState := { st with isLoading := true }
  match signInRes with
  | .error e => (.error e, [st1, { st1 with isLoading := false }])
  | .ok r =>
    if r.isSignedIn then
      match cur with
      | .error e => (.error e, [st1, { st1 with isLoading := false }])
      | .ok u =>
        let st2 : AuthState :=
          { st1 with user := some { id := u.userId, email := email,
                                    name := u.username, role := "user",
                                    createdAt := now } }
        (.ok (), [st1, st2, { st2 with isLoading := false }])
    else (.ok (), [st1, { st1 with isLoading := false }])

/-- Embeds `logout` (AuthContext.tsx lines 104–115): setIsLoading(true); on a
successful signOut, setUser(null); on a failing signOut the catch only
logs — it does NOT rethrow — so the call completes normally with the user
unchanged; finally setIsLoading(false). -/
def logout (st : AuthState) (signOutRes : Except SdkError Unit) :
    Except SdkError Unit × List AuthState :=
  let st1 : AuthState := { st with isLoading := true }
  match signOutRes with
  | .ok _ =>
      let st2 : AuthState := { st1 with user := none }
      (.ok (), [st1, st2, { st2 with isLoading := false }])
  | .error _ => (.ok (), [st1, { st1 with isLoading := false }])

/-- Embeds `signup` (AuthContext.tsx lines 117–136): setIsLoading(true); calls
the SDK signUp; the catch rethrows; finally setIsLoading(false).  No
setUser call exists on any path: the user state is never touched. -/
def signup (st : AuthState) (email : String) (password : String)
    (name : String) (signUpRes : Except SdkError Unit) :
    Except SdkError Unit × List AuthState :=
  let st1 : AuthState := { st with isLoading := true }
  match signUpRes with
  | .ok _ => (.ok (), [st1, { st1 with isLoading := false }])
  | .error e => (.error e, [st1, { st1 with isLoading := false }])

/-! Theorems settling the claims. -/

/-- C1: the claim says every wrapper throws on every non-success status,
"in particular getBook(id) throws on every non-success status, including
404".  False: on a concrete 404 response, getBook returns null (ok none)
and does not throw. -/
theorem c1_counterexample :
    (getBook "https://api" (.ok none) "b1"
        (⟨404, "not found", (0 : Nat)⟩ : HttpResponse Nat)).1 = .ok none
    ∧ throws (getBook "https://api" (.ok none) "b1"
        (⟨404, "not found", (0 : Nat)⟩ : HttpResponse Nat)).1 = false :=
  ⟨rfl, rfl⟩

/-- C1 amended: each of the twelve wrappers returns its success value
exactly when the response status is a success status and throws otherwise
(the parsed body verbatim for the pass-through wrappers, unit for the two
deletes, the converted recommendation list for getRecommendations; the
three getCurrentUser-gated wrappers are taken with a resolved user) —
except getBook, which returns null on a 404 and throws only on other
non-success statuses. -/
theorem c1_amended {α : Type} (baseUrl : String) (session : Session)
    (id listId bookId query : String) (book : List (String × String))
    (cur : Except SdkError AmplifyUser) (u : AmplifyUser)
    (resp : HttpResponse α) (respR : HttpResponse RecsResponse) :
    ((getBooks baseUrl session resp).1 = .ok resp.json ↔ respOk resp = true)
    ∧ throws (getBooks baseUrl session resp).1 = !respOk resp
    ∧ ((getBook baseUrl session id resp).1 = .ok (some resp.json)
        ↔ (respOk resp = true ∧ resp.status ≠ 404))
    ∧ ((getBook baseUrl session id resp).1 = .ok none ↔ resp.status = 404)
    ∧ throws (getBook baseUrl session id resp).1
        = (!respOk resp && !(resp.status == 404))
    ∧ ((createBook baseUrl session book resp).1 = .ok resp.json ↔ respOk resp = true)
    ∧ throws (createBook baseUrl session book resp).1 = !respOk resp
    ∧ ((updateBook baseUrl session id book resp).1 = .ok resp.json ↔ respOk resp = true)
    ∧ throws (updateBook baseUrl session id book resp).1 = !respOk resp
    ∧ ((deleteBook baseUrl session id resp).1 = .ok () ↔ respOk resp = true)
    ∧ throws (deleteBook baseUrl session id resp).1 = !respOk resp
    ∧ ((createReadingList baseUrl session book resp).1 = .ok resp.json ↔ respOk resp = true)
    ∧ throws (createReadingList baseUrl session book resp).1 = !respOk resp
    ∧ ((updateReadingList baseUrl session id book resp).1 = .ok resp.json ↔ respOk resp = true)
    ∧ throws (updateReadingList baseUrl session id book resp).1 = !respOk resp
    ∧ ((getRecommendations baseUrl session query respR).1
        = .ok (((respR.json.recommendations.getD []).enum).map (fun p => formatRec p.1 p.2))
        ↔ respOk respR = true)
    ∧ throws (getRecommendations baseUrl session query respR).1 = !respOk respR
    ∧ ((getReadingLists baseUrl session cur resp).1 = .ok resp.json ↔ respOk resp = true)
    ∧ throws (getReadingLists baseUrl session cur resp).1 = !respOk resp
    ∧ ((deleteReadingList baseUrl session (.ok u) id resp).1 = .ok () ↔ respOk resp = true)
    ∧ throws (deleteReadingList baseUrl session (.ok u) id resp).1 = !respOk resp
    ∧ ((addBookToReadingList baseUrl session (.ok u) listId bookId resp).1
        = .ok resp.json ↔ respOk resp = true)
    ∧ throws (addBookToReadingList baseUrl session (.ok u) listId bookId resp).1
        = !respOk resp
    ∧ ((removeBookFromReadingList baseUrl session (.ok u) listId bookId resp).1
        = .ok resp.json ↔ respOk resp = true)
    ∧ throws (removeBookFromReadingList baseUrl session (.ok u) listId bookId resp).1
        = !respOk resp := by
  refine ⟨?_, ?_, ?_, ?_, ?_, ?_, ?_, ?_, ?_, ?_, ?_, ?_, ?_, ?_, ?_, ?_, ?_, ?_,
    ?_, ?_, ?_, ?_, ?_, ?_, ?_⟩
  · cases h : respOk resp <;> simp [getBooks, h]
  · cases h : respOk resp <;> simp [throws, getBooks, h]
  · by_cases h4 : resp.status = 404 <;> cases h : respOk resp <;>
      simp [getBook, h4, h]
  · by_cases h4 : resp.status = 404 <;> cases h : respOk resp <;>
      simp [getBook, h4, h]
  · by_cases h4 : resp.status = 404 <;> cases h : respOk resp <;>
      simp [throws, getBook, h4, h]
  · cases h : respOk resp <;> simp [createBook, h]
  · cases h : respOk resp <;> simp [throws, createBook, h]
  · cases h : respOk resp <;> simp [updateBook, h]
  · cases h : respOk resp <;> simp [throws, updateBook, h]
  · cases h : respOk resp <;> simp [deleteBook, h]
  · cases h : respOk resp <;> simp [throws, deleteBook, h]
  · cases h : respOk resp <;> simp [createReadingList, h]
  · cases h : respOk resp <;> simp [throws, createReadingList, h]
  · cases h : respOk resp <;> simp [updateReadingList, h]
  · cases h : respOk resp <;> simp [throws, updateReadingList, h]
  · cases h : respOk respR <;> simp [getRecommendations, h]
  · cases h : respOk respR <;> simp [throws, getRecommendations, h]
  · cases h : respOk resp <;> simp [getReadingLists, h]
  · cases h : respOk resp <;> simp [throws, getReadingLists, h]
  · cases h : respOk resp <;> simp [deleteReadingList, h]
  · cases h : respOk resp <;> simp [throws, deleteReadingList, h]
  · cases h : respOk resp <;> simp [addBookToReadingList, h]
  · cases h : respOk resp <;> simp [throws, addBookToReadingList, h]
  · cases h : respOk resp <;> simp [removeBookFromReadingList, h]
  · cases h : respOk resp <;> simp [throws, removeBookFromReadingList, h]

/-- C2: the claim says every wrapper's thrown error carries the HTTP
status and the response text.  False: createReadingList throws the very
same fixed-message error for a 404 with one body and a 500 with another,
so its error carries neither the status nor the text. -/
theorem c2_counterexample :
    (createReadingList "https://api" (.ok none) [("name", "novels")]
        (⟨404, "not found", (0 : Nat)⟩ : HttpResponse Nat)).1
      = .error (.message "Failed to create reading list")
    ∧ (createReadingList "https://api" (.ok none) [("name", "novels")]
        (⟨500, "server exploded", (0 : Nat)⟩ : HttpResponse Nat)).1
      = .error (.message "Failed to create reading list") :=
  ⟨rfl, rfl⟩

/-- C2 amended: only getRecommendations, getReadingLists,
deleteReadingList, addBookToReadingList and removeBookFromReadingList
throw errors carrying the HTTP status and response text; the five book
wrappers and createReadingList/updateReadingList throw fixed messages
independent of status and text (getBook additionally returns null rather
than throwing on a 404). -/
theorem c2_amended {α : Type} (baseUrl : String) (session : Session)
    (id listId bookId query : String) (book : List (String × String))
    (cur : Except SdkError AmplifyUser) (u : AmplifyUser)
    (resp : HttpResponse α) (respR : HttpResponse RecsResponse)
    (h : respOk resp = false) (hR : respOk respR = false) :
    (getRecommendations baseUrl session query respR).1
      = .error (.message ("Failed to get recommendations: "
          ++ toString respR.status ++ " - " ++ respR.body))
    ∧ (getReadingLists baseUrl session cur resp).1
      = .error (.message ("Failed to fetch reading lists: "
          ++ toString resp.status ++ " - " ++ resp.body))
    ∧ (deleteReadingList baseUrl session (.ok u) id resp).1
      = .error (.message ("Failed to delete reading list: "
          ++ toString resp.status ++ " - " ++ resp.body))
    ∧ (addBookToReadingList baseUrl session (.ok u) listId bookId resp).1
      = .error (.message ("Failed to add book to reading list: "
          ++ toString resp.status ++ " - " ++ resp.body))
    ∧ (removeBookFromReadingList baseUrl session (.ok u) listId bookId resp).1
      = .error (.message ("Failed to remove book from reading list: "
          ++ toString resp.status ++ " - " ++ resp.body))
    ∧ (getBooks baseUrl session resp).1 = .error (.message "Failed to fetch books")
    ∧ (resp.status ≠ 404 →
        (getBook baseUrl session id resp).1 = .error (.message "Failed to fetch book"))
    ∧ (createBook baseUrl session book resp).1
      = .error (.message "Failed to create book")
    ∧ (updateBook baseUrl session id book resp).1
      = .error (.message "Failed to update book")
    ∧ (deleteBook baseUrl session id resp).1
      = .error (.message "Failed to delete book")
    ∧ (createReadingList baseUrl session book resp).1
      = .error (.message "Failed to create reading list")
    ∧ (updateReadingList baseUrl session id book resp).1
      = .error (.message "Failed to update reading list") := by
  refine ⟨?_, ?_, ?_, ?_, ?_, ?_, ?_, ?_, ?_, ?_, ?_, ?_⟩
  · simp [getRecommendations, hR]
  · simp [getReadingLists, h]
  · simp [deleteReadingList, h]
  · simp [addBookToReadingList, h]
  · simp [removeBookFromReadingList, h]
  · simp [getBooks, h]
  · intro h4; simp [getBook, h4, h]
  · simp [createBook, h]
  · simp [updateBook, h]
  · simp [deleteBook, h]
  · simp [createReadingList, h]
  · simp [updateReadingList, h]

/-- C2 amended, witness: the amended theorem applied at a concrete
non-success response (status 500, body "boom") for every wrapper. -/
theorem c2_amended_witness :
    (getRecommendations "https://api" (.ok none) "space opera"
        (⟨500, "boom", ⟨none⟩⟩ : HttpResponse RecsResponse)).1
      = .error (.message ("Failed to get recommendations: "
          ++ toString (500 : Nat) ++ " - " ++ "boom"))
    ∧ (getReadingLists "https://api" (.ok none) (.error ⟨"no user"⟩)
        (⟨500, "boom", (0 : Nat)⟩ : HttpResponse Nat)).1
      = .error (.message ("Failed to fetch reading lists: "
          ++ toString (500 : Nat) ++ " - " ++ "boom"))
    ∧ (deleteReadingList "https://api" (.ok none) (.ok ⟨"u1", "alice", none⟩) "L1"
        (⟨500, "boom", (0 : Nat)⟩ : HttpResponse Nat)).1
      = .error (.message ("Failed to delete reading list: "
          ++ toString (500 : Nat) ++ " - " ++ "boom"))
    ∧ (addBookToReadingList "https://api" (.ok none) (.ok ⟨"u1", "alice", none⟩)
        "L1" "b1" (⟨500, "boom", (0 : Nat)⟩ : HttpResponse Nat)).1
      = .error (.message ("Failed to add book to reading list: "
          ++ toString (500 : Nat) ++ " - " ++ "boom"))
    ∧ (removeBookFromReadingList "https://api" (.ok none) (.ok ⟨"u1", "alice", none⟩)
        "L1" "b1" (⟨500, "boom", (0 : Nat)⟩ : HttpResponse Nat)).1
      = .error (.message ("Failed to remove book from reading list: "
          ++ toString (500 : Nat) ++ " - " ++ "boom"))
    ∧ (getBooks "https://api" (.ok none)
        (⟨500, "boom", (0 : Nat)⟩ : HttpResponse Nat)).1
      = .error (.message "Failed to fetch books")
    ∧ (getBook "https://api" (.ok none) "b1"
          (⟨500, "boom", (0 : Nat)⟩ : HttpResponse Nat)).1
        = .error (.message "Failed to fetch book")
    ∧ (createBook "https://api" (.ok none) [("title", "Dune")]
        (⟨500, "boom", (0 : Nat)⟩ : HttpResponse Nat)).1
      = .error (.message "Failed to create book")
    ∧ (updateBook "https://api" (.ok none) "b1" [("title", "Dune")]
        (⟨500, "boom", (0 : Nat)⟩ : HttpResponse Nat)).1
      = .error (.message "Failed to update book")
    ∧ (deleteBook "https://api" (.ok none) "b1"
        (⟨500, "boom", (0 : Nat)⟩ : HttpResponse Nat)).1
      = .error (.message "Failed to delete book")
    ∧ (createReadingList "https://api" (.ok none) [("title", "Dune")]
        (⟨500, "boom", (0 : Nat)⟩ : HttpResponse Nat)).1
      = .error (.message "Failed to create reading list")
    ∧ (updateReadingList "https://api" (.ok none) "L1" [("title", "Dune")]
        (⟨500, "boom", (0 : Nat)⟩ : HttpResponse Nat)).1
      = .error (.message "Failed to update reading list") := by
  have H := c2_amended "https://api" (.ok none) "b1" "L1" "b1" "space opera"
    [("title", "Dune")] (.error ⟨"no user"⟩) ⟨"u1", "alice", none⟩
    ⟨500, "boom", (0 : Nat)⟩ ⟨500, "boom", ⟨none⟩⟩ (by decide) (by decide)
  exact ⟨H.1, H.2.1, H.2.2.1, H.2.2.2.1, H.2.2.2.2.1, H.2.2.2.2.2.1,
    H.2.2.2.2.2.2.1 (by decide), H.2.2.2.2.2.2.2.1, H.2.2.2.2.2.2.2.2.1,
    H.2.2.2.2.2.2.2.2.2.1, H.2.2.2.2.2.2.2.2.2.2.1, H.2.2.2.2.2.2.2.2.2.2.2⟩

/-- C6: the claim says no wrapper appends additional query parameters such
as userId.  False: getReadingLists, called with a signed-in user u1,
requests /reading-lists?userId=u1, which differs from the listed
/reading-lists URL (deleteReadingList likewise appends ?userId=). -/
theorem c6_counterexample :
    (getReadingLists "https://api" (.ok none) (.ok ⟨"u1", "alice", none⟩)
        (⟨200, "", ([] : List Nat)⟩ : HttpResponse (List Nat))).2
      = [⟨"https://api/reading-lists?userId=u1", "GET",
          [("Content-Type", "application/json")], none⟩]
    ∧ "https://api/reading-lists?userId=u1" ≠ "https://api/reading-lists"
    ∧ (deleteReadingList "https://api" (.ok none) (.ok ⟨"u1", "alice", none⟩) "L1"
        (⟨200, "", (0 : Nat)⟩ : HttpResponse Nat)).2
      = [⟨"https://api/reading-lists/L1?userId=u1", "DELETE",
          [("Content-Type", "application/json")], none⟩]
    ∧ "https://api/reading-lists/L1?userId=u1" ≠ "https://api/reading-lists/L1" := by
  refine ⟨rfl, by decide, rfl, by decide⟩

/-- C6 amended: every wrapper issues exactly one request with the listed
method and URL under the base URL, except that getReadingLists appends
?userId=<resolved user id or fallback> and deleteReadingList appends
?userId=<current user id>. -/
theorem c6_amended {α : Type} (baseUrl : String) (session : Session)
    (id listId bookId query : String) (book list : List (String × String))
    (cur : Except SdkError AmplifyUser) (u : AmplifyUser)
    (resp : HttpResponse α) (respR : HttpResponse RecsResponse) :
    (getBooks baseUrl session resp).2
      = [⟨baseUrl ++ "/books", "GET", getAuthHeaders session, none⟩]
    ∧ (getBook baseUrl session id resp).2
      = [⟨baseUrl ++ "/books/" ++ id, "GET", getAuthHeaders session, none⟩]
    ∧ (createBook baseUrl session book resp).2
      = [⟨baseUrl ++ "/books", "POST", getAuthHeaders session,
          some (.bookPayload book)⟩]
    ∧ (updateBook baseUrl session id book resp).2
      = [⟨baseUrl ++ "/books/" ++ id, "PUT", getAuthHeaders session,
          some (.bookPayload book)⟩]
    ∧ (deleteBook baseUrl session id resp).2
      = [⟨baseUrl ++ "/books/" ++ id, "DELETE", getAuthHeaders session, none⟩]
    ∧ (getRecommendations baseUrl session query respR).2
      = [⟨baseUrl ++ "/recommendations", "POST", getAuthHeaders session,
          some (.queryPayload query)⟩]
    ∧ (getReadingLists baseUrl session cur resp).2
      = [⟨baseUrl ++ "/reading-lists?userId=" ++ resolvedUserId cur, "GET",
          getAuthHeaders session, none⟩]
    ∧ (createReadingList baseUrl session list resp).2
      = [⟨baseUrl ++ "/reading-lists", "POST", getAuthHeaders session,
          some (.listPayload list)⟩]
    ∧ (updateReadingList baseUrl session id list resp).2
      = [⟨baseUrl ++ "/reading-lists/" ++ id, "PUT", getAuthHeaders session,
          some (.listPayload list)⟩]
    ∧ (deleteReadingList baseUrl session (.ok u) id resp).2
      = [⟨baseUrl ++ "/reading-lists/" ++ id ++ "?userId=" ++ u.userId, "DELETE",
          getAuthHeaders session, none⟩]
    ∧ (addBookToReadingList baseUrl session (.ok u) listId bookId resp).2
      = [⟨baseUrl ++ "/reading-lists/" ++ listId, "PUT", getAuthHeaders session,
          some (.listMutation u.userId "add" bookId)⟩]
    ∧ (removeBookFromReadingList baseUrl session (.ok u) listId bookId resp).2
      = [⟨baseUrl ++ "/reading-lists/" ++ listId, "PUT", getAuthHeaders session,
          some (.listMutation u.userId "remove" bookId)⟩] := by
  refine ⟨?_, ?_, ?_, ?_, ?_, ?_, ?_, ?_, ?_, ?_, ?_, ?_⟩
  · cases h : respOk resp <;> simp [getBooks, h]
  · by_cases h4 : resp.status = 404 <;> cases h : respOk resp <;>
      simp [getBook, h4, h]
  · cases h : respOk resp <;> simp [createBook, h]
  · cases h : respOk resp <;> simp [updateBook, h]
  · cases h : respOk resp <;> simp [deleteBook, h]
  · cases h : respOk respR <;> simp [getRecommendations, h]
  · cases h : respOk resp <;> simp [getReadingLists, h]
  · cases h : respOk resp <;> simp [createReadingList, h]
  · cases h : respOk resp <;> simp [updateReadingList, h]
  · cases h : respOk resp <;> simp [deleteReadingList, h]
  · cases h : respOk resp <;> simp [addBookToReadingList, h]
  · cases h : respOk resp <;> simp [removeBookFromReadingList, h]

/-- C7: getAuthHeaders never throws (it is total on every session
outcome), always includes the Content-Type header, and includes a Bearer
Authorization header exactly when the session yields a (non-empty, i.e.
truthy) id token. -/
theorem c7_headers (session : Session) :
    ("Content-Type", "application/json") ∈ getAuthHeaders session
    ∧ ((∃ t, ("Authorization", "Bearer " ++ t) ∈ getAuthHeaders session)
        ↔ ∃ t, t ≠ "" ∧ session = .ok (some t)) := by
  rcases session with e | o
  · refine ⟨by simp [getAuthHeaders], iff_of_false ?_ ?_⟩
    · rintro ⟨t, hmem⟩
      simp [getAuthHeaders] at hmem
    · rintro ⟨t, -, heq⟩
      exact Except.noConfusion heq
  · rcases o with _ | token
    · refine ⟨by simp [getAuthHeaders], iff_of_false ?_ ?_⟩
      · rintro ⟨t, hmem⟩
        simp [getAuthHeaders] at hmem
      · rintro ⟨t, -, heq⟩
        simp at heq
    · by_cases h : token = ""
      · subst h
        refine ⟨by simp [getAuthHeaders], iff_of_false ?_ ?_⟩
        · rintro ⟨t, hmem⟩
          simp [getAuthHeaders] at hmem
        · rintro ⟨t, ht, heq⟩
          simp at heq
          exact ht heq.symm
      · refine ⟨by simp [getAuthHeaders, h], iff_of_true ⟨token, ?_⟩ ⟨token, h, rfl⟩⟩
        simp [getAuthHeaders, h]

/-- C10: when getCurrentUser rejects, each of deleteReadingList,
addBookToReadingList and removeBookFromReadingList propagates the SDK
error and issues no HTTP request, whereas getReadingLists (whose nested
try swallows the rejection) still issues its one request. -/
theorem c10_requires_auth {α : Type} (baseUrl : String) (session : Session)
    (e : SdkError) (id listId bookId : String) (resp : HttpResponse α) :
    deleteReadingList baseUrl session (.error e) id resp
      = (.error (.sdk e), [])
    ∧ addBookToReadingList baseUrl session (.error e) listId bookId resp
      = (.error (.sdk e), [])
    ∧ removeBookFromReadingList baseUrl session (.error e) listId bookId resp
      = (.error (.sdk e), [])
    ∧ (getReadingLists baseUrl session (.error e) resp).2.length = 1 := by
  refine ⟨rfl, rfl, rfl, ?_⟩
  cases h : respOk resp <;> simp [getReadingLists, h]

/-- A concrete mirrored user, for the concrete auth scenarios below. -/
def aliceUser : User :=
  { id := "u1", email := "a@b.c", name := "alice", role := "user",
    createdAt := "t0" }

/-- A concrete auth state with alice signed in and no operation pending. -/
def aliceState : AuthState := { user := some aliceUser, isLoading := false }

/-- C4: the claim says a failing sign-out is surfaced to logout's caller
as a thrown error.  False: on a concrete failing signOut, logout completes
normally (no throw) — its catch only logs. -/
theorem c4_counterexample :
    (logout aliceState (.error ⟨"network down"⟩)).1 = .ok ()
    ∧ throws (logout aliceState (.error ⟨"network down"⟩)).1 = false :=
  ⟨rfl, rfl⟩

/-- C4 amended: logout swallows a failing sign-out — it completes normally
without rethrowing, leaves the user state unchanged, and only resets
isLoading (login and signup, by contrast, do rethrow SDK failures). -/
theorem c4_amended (st : AuthState) (e : SdkError) (now email password name : String)
    (cur : Except SdkError AmplifyUser) :
    (logout st (.error e)).1 = .ok ()
    ∧ (logout st (.error e)).2.getLast?.map (fun s => s.user) = some st.user
    ∧ (logout st (.error e)).2.getLast?.map (fun s => s.isLoading) = some false
    ∧ (login st now email password (.error e) cur).1 = .error e
    ∧ (signup st email password name (.error e)).1 = .error e := by
  exact ⟨rfl, rfl, rfl, rfl, rfl⟩

/-- C5: the claim says that after a successful signup the user state is
updated from the SDK, not left unchanged.  False: a successful signup
ends with the state exactly as it started (here, still the previous user
and no SDK-derived update); the signup path contains no setUser call. -/
theorem c5_counterexample :
    (signup aliceState "new@b.c" "pw" "bob" (.ok ())).2.getLast? = some aliceState :=
  rfl

/-- C5 amended: after a successful login (signIn signed-in and
getCurrentUser resolved) the user state mirrors the SDK user, and after a
successful logout it is cleared; a successful signup leaves the user
state unchanged (no SDK mirroring happens on the signup path). -/
theorem c5_amended (st : AuthState) (now email password name : String)
    (u : AmplifyUser) :
    ((login st now email password (.ok ⟨true⟩) (.ok u)).2.getLast?.map (fun s => s.user)
      = some (some { id := u.userId, email := email, name := u.username,
                     role := "user", createdAt := now }))
    ∧ ((logout st (.ok ())).2.getLast?.map (fun s => s.user) = some none)
    ∧ ((signup st email password name (.ok ())).2.getLast?.map (fun s => s.user)
      = some st.user) := by
  exact ⟨rfl, rfl, rfl⟩

/-- C8: isLoading starts true in the initial state, the initial session
resolution ends with it false on both outcomes, and each of login, logout
and signup keeps it true from entry through every intermediate state and
ends with it false, on every success and failure path. -/
theorem c8_isLoading (st : AuthState) (now email password name : String)
    (signInRes : Except SdkError SignInResult)
    (cur : Except SdkError AmplifyUser)
    (signOutRes signUpRes : Except SdkError Unit) :
    initialAuthState.isLoading = true
    ∧ (checkAuth now cur).isLoading = false
    ∧ ((login st now email password signInRes cur).2.head?.map (fun s => s.isLoading)
        = some true)
    ∧ (login st now email password signInRes cur).2.dropLast.all (fun s => s.isLoading)
        = true
    ∧ ((login st now email password signInRes cur).2.getLast?.map (fun s => s.isLoading)
        = some false)
    ∧ ((logout st signOutRes).2.head?.map (fun s => s.isLoading) = some true)
    ∧ (logout st signOutRes).2.dropLast.all (fun s => s.isLoading) = true
    ∧ ((logout st signOutRes).2.getLast?.map (fun s => s.isLoading) = some false)
    ∧ ((signup st email password name signUpRes).2.head?.map (fun s => s.isLoading)
        = some true)
    ∧ (signup st email password name signUpRes).2.dropLast.all (fun s => s.isLoading)
        = true
    ∧ ((signup st email password name signUpRes).2.getLast?.map (fun s => s.isLoading)
        = some false) := by
  refine ⟨rfl, ?_, ?_, ?_, ?_, ?_, ?_, ?_, ?_, ?_, ?_⟩
  · rcases cur with e | u <;> rfl
  · rcases signInRes with e | ⟨⟨b⟩⟩
    · rfl
    · cases b
      · rfl
      · rcases cur with e | u <;> rfl
  · rcases signInRes with e | ⟨⟨b⟩⟩
    · rfl
    · cases b
      · rfl
      · rcases cur with e | u <;> rfl
  · rcases signInRes with e | ⟨⟨b⟩⟩
    · rfl
    · cases b
      · rfl
      · rcases cur with e | u <;> rfl
  · rcases signOutRes with e | u <;> rfl
  · rcases signOutRes with e | u <;> rfl
  · rcases signOutRes with e | u <;> rfl
  · rcases signUpRes with e | u <;> rfl
  · rcases signUpRes with e | u <;> rfl
  · rcases signUpRes with e | u <;> rfl

/-- C9: when signIn throws, or completes with isSignedIn false, login
leaves the user state unchanged (the error path rethrows and no setUser
runs). -/
theorem c9_login_failure_state (st : AuthState) (now email password : String)
    (e : SdkError) (cur : Except SdkError AmplifyUser) :
    ((login st now email password (.error e) cur).2.getLast?.map (fun s => s.user)
      = some st.user)
    ∧ (login st now email password (.error e) cur).1 = .error e
    ∧ ((login st now email password (.ok ⟨false⟩) cur).2.getLast?.map (fun s => s.user)
      = some st.user)
    ∧ (login st now email password (.ok ⟨false⟩) cur).1 = .ok () := by
  exact ⟨rfl, rfl, rfl, rfl⟩

/-- A concrete server recommendation element: title, author and reason
present, no confidence field (and, as always for this Lambda response, no
id or bookId field exists server-side). -/
def recW : BedrockRec :=
  { title := "Dune", author := "Frank Herbert", reason := some "classic epic",
    confidence := none }

/-- A concrete successful /recommendations response carrying recW. -/
def respW : HttpResponse RecsResponse := ⟨200, "", ⟨some [recW]⟩⟩

/-- C3: the claim says each returned Recommendation mirrors the server
element verbatim, its identifier, book identifier and confidence included,
with nothing synthesized or defaulted.  False: for a server element with
no confidence field (and no identifiers at all), the client returns a
synthesized id "bedrock-0", a synthesized bookId "unknown-0" and the
client-side default confidence 0.8. -/
theorem c3_counterexample :
    (getRecommendations "https://api" (.ok none) "space opera" respW).1
      = .ok [{ id := "bedrock-0", bookId := "unknown-0", reason := "classic epic",
               confidence := 4/5, title := "Dune", author := "Frank Herbert" }]
    ∧ recW.confidence = none :=
  ⟨rfl, rfl⟩

/-- C3 amended: on success, the i-th returned Recommendation is the i-th
server element passed through the client-side conversion `formatRec`,
which synthesizes id "bedrock-<i>" and bookId "unknown-<i>", mirrors
title and author, and falls back to a title/author template for a
missing/empty reason and to 0.8 for a missing/zero confidence. -/
theorem c3_amended (baseUrl : String) (session : Session) (query : String)
    (resp : HttpResponse RecsResponse) (out : List Recommendation)
    (h : (getRecommendations baseUrl session query resp).1 = .ok out) (i : Nat) :
    out[i]? = ((resp.json.recommendations.getD [])[i]?).map (formatRec i) := by
  by_cases hOk : respOk resp = true
  · simp only [getRecommendations, hOk, if_true, Except.ok.injEq] at h
    subst h
    rw [List.getElem?_map, List.getElem?_enum]
    cases hl : (resp.json.recommendations.getD [])[i]? <;> simp
  · simp [getRecommendations, hOk] at h

/-- C3 amended, witness: the amended theorem applied to the concrete
successful response respW at index 0. -/
theorem c3_amended_witness :
    [formatRec 0 recW][0]? = ((respW.json.recommendations.getD [])[0]?).map (formatRec 0) :=
  c3_amended "https://api" (.ok none) "space opera" respW [formatRec 0 recW] rfl 0

end LibClient
